import Mathlib

/-!
Verification of the EasyMed authentication/session core: the OTP issuer and
verifier (`twilioService.ts`) and the session/auth orchestrator
(`realAuthService.ts`), embedded shallowly.  JavaScript strings are modelled
as `List Char`, JavaScript `Map`s as insertion-ordered association lists,
`Date` values as milliseconds since the epoch, and the nondeterministic
environment (`Date.now()`, `Math.random()`) as explicit parameters.
-/

abbrev Str := List Char

/-- Coerce a Lean string literal to the `List Char` model of JS strings. -/
def strOf (s : String) : Str := s.data

/-- Lookup in a JS `Map` (first entry with the given key). -/
def mapGet {α : Type} : List (Str × α) → Str → Option α
  | [], _ => none
  | kv :: rest, k => if kv.1 = k then some kv.2 else mapGet rest k

/-- JS `Map.set`: update the existing entry in place, else append. -/
def mapSet {α : Type} : List (Str × α) → Str → α → List (Str × α)
  | [], k, v => [(k, v)]
  | kv :: rest, k, v => if kv.1 = k then (k, v) :: rest else kv :: mapSet rest k v

/-- JS `Map.delete`: remove the entry with the given key. -/
def mapDelete {α : Type} : List (Str × α) → Str → List (Str × α)
  | [], _ => []
  | kv :: rest, k => if kv.1 = k then mapDelete rest k else kv :: mapDelete rest k

theorem mapGet_mapSet_self {α : Type} (m : List (Str × α)) (k : Str) (v : α) :
    mapGet (mapSet m k v) k = some v := by
  induction m with
  | nil => simp [mapSet, mapGet]
  | cons kv rest ih =>
      by_cases h : kv.1 = k
      · simp [mapSet, mapGet, h]
      · simp [mapSet, mapGet, h, ih]

theorem mapGet_mapDelete_self {α : Type} (m : List (Str × α)) (k : Str) :
    mapGet (mapDelete m k) k = none := by
  induction m with
  | nil => simp [mapDelete, mapGet]
  | cons kv rest ih =>
      by_cases h : kv.1 = k
      · simp [mapDelete, h, ih]
      · simp [mapDelete, mapGet, h, ih]

/-- JS `String.prototype.replace(/\D/g, '')`: keep only the decimal digits. -/
def digitsOf (s : Str) : Str := s.filter Char.isDigit

/-- JS `String.prototype.startsWith`. -/
def strStartsWith : Str → Str → Bool
  | _, [] => true
  | [], _ :: _ => false
  | c :: s, p :: ps => c = p && strStartsWith s ps

/-- First character class `[1-9]` of the E.164 regexes. -/
def isDigit19 (c : Char) : Bool := '1' ≤ c && c ≤ '9'

/-- `TwilioService.isValidPhoneNumber`: the regex test `/^\+[1-9]\d{1,14}$/`. -/
def isValidPhoneNumber : Str → Bool
  | '+' :: c :: rest =>
      isDigit19 c && rest.all Char.isDigit &&
        decide (1 ≤ rest.length) && decide (rest.length ≤ 14)
  | _ => false

/-- Matcher for `[1-9]\d{1,14}` anchored on both sides. -/
def phoneLikeCore : Str → Bool
  | c :: rest =>
      isDigit19 c && rest.all Char.isDigit &&
        decide (1 ≤ rest.length) && decide (rest.length ≤ 14)
  | [] => false

/-- The regex test `/^\+?[1-9]\d{1,14}$/` used by `authenticateAdmin` to decide
whether an identifier is a phone number. -/
def phoneLikeTest (s : Str) : Bool :=
  match s with
  | c :: rest => if c = '+' then phoneLikeCore rest else phoneLikeCore (c :: rest)
  | [] => phoneLikeCore []

/-- `TwilioService.formatPhoneNumber`: strip non-digits, then map the three
recognized digit patterns to `+`-prefixed canonical form; anything else is
rejected (`null`). -/
def formatPhoneNumber (phoneNumber : Str) : Option Str :=
  let cleaned := digitsOf phoneNumber
  if cleaned.length = 10 && strStartsWith cleaned (strOf "6789") then
    some (strOf "+91" ++ cleaned)
  else if cleaned.length = 12 && strStartsWith cleaned (strOf "91") then
    some ('+' :: cleaned)
  else if cleaned.length = 13 && strStartsWith cleaned (strOf "091") then
    some ('+' :: cleaned.tail)
  else
    none

example : formatPhoneNumber (strOf "6789012345") = some (strOf "+916789012345") := by decide
example : formatPhoneNumber (strOf "9876543210") = none := by decide
example : formatPhoneNumber (strOf "+919876543210") = some (strOf "+919876543210") := by decide
example : formatPhoneNumber (strOf "0919876543210") = some (strOf "+919876543210") := by decide
example : isValidPhoneNumber (strOf "+919876543210") = true := by decide
example : phoneLikeTest (digitsOf (strOf "easymed2025@example.com")) = true := by decide
example : phoneLikeTest (digitsOf (strOf "admin@easymed.in")) = false := by decide

/-!
Model of the ECMAScript `Date` semantics used by the persistence adapter:
`JSON.stringify` serializes a `Date` via `Date.prototype.toISOString`
(`YYYY-MM-DDTHH:MM:SS.mmmZ`, millisecond precision) and
`loadUsersFromStorage` recovers it with `new Date(isoString)`.  The calendar
functions below follow the ECMAScript specification (`DayFromYear`,
`YearFromTime`, `MonthFromTime`, `MakeDay`, `MakeDate`) on the proleptic
Gregorian calendar, restricted to timestamps from 1970 up to year 9999 —
the range in which `toISOString` uses the plain four-digit year format.
-/

/-- ECMAScript `DayFromYear` for years `1970 ≤ y`. -/
def dayFromYear (y : Nat) : Nat :=
  365 * (y - 1970) + (y - 1969) / 4 - (y - 1901) / 100 + (y - 1601) / 400

/-- 1 in a Gregorian leap year, else 0 (ECMAScript `InLeapYear`). -/
def leapN (y : Nat) : Nat :=
  if (y % 4 = 0 ∧ ¬y % 100 = 0) ∨ y % 400 = 0 then 1 else 0

/-- ECMAScript `YearFromTime`, reformulated on day numbers: the greatest year
whose first day is not after the given day. -/
def yearFromDay (d : Nat) : Nat :=
  1970 + Nat.findGreatest (fun k => dayFromYear (1970 + k) ≤ d) (d / 365 + 1)

/-- First day-of-year of 1-based month `m` (ECMAScript month table). -/
def monthStart (lp m : Nat) : Nat :=
  if m = 1 then 0
  else if m = 2 then 31
  else if m = 3 then 59 + lp
  else if m = 4 then 90 + lp
  else if m = 5 then 120 + lp
  else if m = 6 then 151 + lp
  else if m = 7 then 181 + lp
  else if m = 8 then 212 + lp
  else if m = 9 then 243 + lp
  else if m = 10 then 273 + lp
  else if m = 11 then 304 + lp
  else 334 + lp

/-- ECMAScript `MonthFromTime` and `DateFromTime` on a day-of-year:
returns the 1-based month and day-of-month. -/
def monthDayOfYear (lp dy : Nat) : Nat × Nat :=
  if dy < 31 then (1, dy + 1)
  else if dy < 59 + lp then (2, dy - 31 + 1)
  else if dy < 90 + lp then (3, dy - (59 + lp) + 1)
  else if dy < 120 + lp then (4, dy - (90 + lp) + 1)
  else if dy < 151 + lp then (5, dy - (120 + lp) + 1)
  else if dy < 181 + lp then (6, dy - (151 + lp) + 1)
  else if dy < 212 + lp then (7, dy - (181 + lp) + 1)
  else if dy < 243 + lp then (8, dy - (212 + lp) + 1)
  else if dy < 273 + lp then (9, dy - (243 + lp) + 1)
  else if dy < 304 + lp then (10, dy - (273 + lp) + 1)
  else if dy < 334 + lp then (11, dy - (304 + lp) + 1)
  else (12, dy - (334 + lp) + 1)

set_option maxHeartbeats 1000000

theorem dayFromYear_succ (y : Nat) (h : 1970 ≤ y) :
    dayFromYear (y + 1) = dayFromYear y + 365 + leapN y := by
  unfold dayFromYear leapN
  split_ifs <;> omega

theorem dayFromYear_mono {a b : Nat} (ha : 1970 ≤ a) (hab : a ≤ b) :
    dayFromYear a ≤ dayFromYear b := by
  induction b with
  | zero => omega
  | succ n ih =>
      rcases Nat.lt_or_ge a (n + 1) with hlt | hge
      · have hn : 1970 ≤ n := by omega
        have := dayFromYear_succ n hn
        have := ih (by omega)
        omega
      · have he : a = n + 1 := by omega
        rw [he]

theorem yearFromDay_spec (d : Nat) :
    1970 ≤ yearFromDay d ∧ dayFromYear (yearFromDay d) ≤ d ∧
      d < dayFromYear (yearFromDay d + 1) := by
  have hP0 : dayFromYear (1970 + 0) ≤ d := by unfold dayFromYear; omega
  have hspec : dayFromYear (1970 + Nat.findGreatest (fun k => dayFromYear (1970 + k) ≤ d) (d / 365 + 1)) ≤ d :=
    Nat.findGreatest_spec (P := fun k => dayFromYear (1970 + k) ≤ d) (m := 0)
      (n := d / 365 + 1) (Nat.zero_le _) hP0
  refine ⟨by unfold yearFromDay; omega, hspec, ?_⟩
  set k := Nat.findGreatest (fun k => dayFromYear (1970 + k) ≤ d) (d / 365 + 1) with hk
  show d < dayFromYear (1970 + k + 1)
  by_contra hcon
  push_neg at hcon
  have hnext : dayFromYear (1970 + (k + 1)) ≤ d := by
    have he : 1970 + k + 1 = 1970 + (k + 1) := by omega
    rw [← he]
    exact hcon
  by_cases hle : k + 1 ≤ d / 365 + 1
  · exact Nat.findGreatest_is_greatest (P := fun k => dayFromYear (1970 + k) ≤ d)
      (n := d / 365 + 1) (by omega) hle hnext
  · have hkb : k ≤ d / 365 + 1 := hk ▸ Nat.findGreatest_le (d / 365 + 1)
    have hkeq : k = d / 365 + 1 := by omega
    have hlow : 365 * (k + 1) ≤ dayFromYear (1970 + (k + 1)) := by
      unfold dayFromYear
      omega
    omega

theorem monthDayOfYear_eq (lp dy m dm : Nat) (hlp : lp ≤ 1) (hdy : dy < 365 + lp)
    (h : monthDayOfYear lp dy = (m, dm)) :
    monthStart lp m + (dm - 1) = dy ∧ 1 ≤ m ∧ m ≤ 12 ∧ 1 ≤ dm ∧ dm ≤ 31 := by
  unfold monthDayOfYear at h
  by_cases h1 : dy < 31
  · rw [if_pos h1] at h
    injection h with e1 e2; subst e1; subst e2; simp only [monthStart]; norm_num; omega
  · rw [if_neg h1] at h
    by_cases h2 : dy < 59 + lp
    · rw [if_pos h2] at h
      injection h with e1 e2; subst e1; subst e2; simp only [monthStart]; norm_num; omega
    · rw [if_neg h2] at h
      by_cases h3 : dy < 90 + lp
      · rw [if_pos h3] at h
        injection h with e1 e2; subst e1; subst e2; simp only [monthStart]; norm_num; omega
      · rw [if_neg h3] at h
        by_cases h4 : dy < 120 + lp
        · rw [if_pos h4] at h
          injection h with e1 e2; subst e1; subst e2; simp only [monthStart]; norm_num; omega
        · rw [if_neg h4] at h
          by_cases h5 : dy < 151 + lp
          · rw [if_pos h5] at h
            injection h with e1 e2; subst e1; subst e2; simp only [monthStart]; norm_num; omega
          · rw [if_neg h5] at h
            by_cases h6 : dy < 181 + lp
            · rw [if_pos h6] at h
              injection h with e1 e2; subst e1; subst e2; simp only [monthStart]; norm_num; omega
            · rw [if_neg h6] at h
              by_cases h7 : dy < 212 + lp
              · rw [if_pos h7] at h
                injection h with e1 e2; subst e1; subst e2; simp only [monthStart]; norm_num; omega
              · rw [if_neg h7] at h
                by_cases h8 : dy < 243 + lp
                · rw [if_pos h8] at h
                  injection h with e1 e2; subst e1; subst e2; simp only [monthStart]; norm_num; omega
                · rw [if_neg h8] at h
                  by_cases h9 : dy < 273 + lp
                  · rw [if_pos h9] at h
                    injection h with e1 e2; subst e1; subst e2; simp only [monthStart]; norm_num; omega
                  · rw [if_neg h9] at h
                    by_cases h10 : dy < 304 + lp
                    · rw [if_pos h10] at h
                      injection h with e1 e2; subst e1; subst e2; simp only [monthStart]; norm_num; omega
                    · rw [if_neg h10] at h
                      by_cases h11 : dy < 334 + lp
                      · rw [if_pos h11] at h
                        injection h with e1 e2; subst e1; subst e2; simp only [monthStart]; norm_num; omega
                      · rw [if_neg h11] at h
                        injection h with e1 e2; subst e1; subst e2; simp only [monthStart]; norm_num; omega

theorem monthDayOfYear_spec (lp dy : Nat) (hlp : lp ≤ 1) (hdy : dy < 365 + lp) :
    monthStart lp (monthDayOfYear lp dy).1 + ((monthDayOfYear lp dy).2 - 1) = dy ∧
      1 ≤ (monthDayOfYear lp dy).1 ∧ (monthDayOfYear lp dy).1 ≤ 12 ∧
      1 ≤ (monthDayOfYear lp dy).2 ∧ (monthDayOfYear lp dy).2 ≤ 31 :=
  monthDayOfYear_eq lp dy _ _ hlp hdy rfl

/-- Decimal digit character. -/
def digitChar (d : Nat) : Char :=
  match d with
  | 0 => '0' | 1 => '1' | 2 => '2' | 3 => '3' | 4 => '4'
  | 5 => '5' | 6 => '6' | 7 => '7' | 8 => '8' | _ => '9'

/-- Zero-padded `k`-digit decimal rendering of `n % 10^k`. -/
def printPad : Nat → Nat → Str
  | 0, _ => []
  | k + 1, n => printPad k (n / 10) ++ [digitChar (n % 10)]

/-- Numeric value of a digit string (how `new Date` reads a field). -/
def parseDigits (s : Str) : Nat := s.foldl (fun a c => 10 * a + (c.toNat - 48)) 0

theorem digitChar_toNat (d : Nat) (h : d < 10) : (digitChar d).toNat = 48 + d := by
  interval_cases d <;> rfl

theorem digitChar_isDigit (d : Nat) (h : d < 10) : (digitChar d).isDigit = true := by
  interval_cases d <;> rfl

theorem printPad_length (k n : Nat) : (printPad k n).length = k := by
  induction k generalizing n with
  | zero => rfl
  | succ k ih => simp [printPad, ih]

theorem printPad_all_digits (k n : Nat) : (printPad k n).all Char.isDigit = true := by
  induction k generalizing n with
  | zero => rfl
  | succ k ih =>
      simp [printPad, ih, digitChar_isDigit (n % 10) (Nat.mod_lt n (by omega))]

theorem foldl_printPad (k : Nat) : ∀ n a : Nat,
    ((printPad k n).foldl (fun a c => 10 * a + (c.toNat - 48)) a) = a * 10 ^ k + n % 10 ^ k := by
  induction k with
  | zero => intro n a; simp [printPad, Nat.mod_one]
  | succ k ih =>
      intro n a
      rw [printPad, List.foldl_append, ih (n / 10) a]
      simp only [List.foldl_cons, List.foldl_nil]
      rw [digitChar_toNat (n % 10) (Nat.mod_lt n (by omega))]
      have hm : 48 + n % 10 - 48 = n % 10 := by omega
      rw [hm, pow_succ', Nat.mod_mul]
      ring

theorem parseDigits_printPad (k n : Nat) (h : n < 10 ^ k) : parseDigits (printPad k n) = n := by
  unfold parseDigits
  rw [foldl_printPad k n 0, Nat.zero_mul, Nat.zero_add]
  exact Nat.mod_eq_of_lt h

/-- Read a fixed-width decimal field from the front of a string. -/
def readField (k : Nat) (s : Str) : Option (Nat × Str) :=
  if (s.take k).length = k ∧ (s.take k).all Char.isDigit then
    some (parseDigits (s.take k), s.drop k)
  else none

/-- Consume one expected separator character. -/
def expectChar (c : Char) : Str → Option Str
  | x :: rest => if x = c then some rest else none
  | [] => none

theorem readField_append (k n : Nat) (h : n < 10 ^ k) (rest : Str) :
    readField k (printPad k n ++ rest) = some (n, rest) := by
  unfold readField
  have hlen : (printPad k n).length = k := printPad_length k n
  have htake0 : ∀ l : Str, l.length = k → (l ++ rest).take k = l := by
    intro l hl; rw [← hl]; exact List.take_left _ _
  have hdrop0 : ∀ l : Str, l.length = k → (l ++ rest).drop k = rest := by
    intro l hl; rw [← hl]; exact List.drop_left _ _
  rw [htake0 _ hlen, hdrop0 _ hlen, hlen, parseDigits_printPad k n h]
  simp [printPad_all_digits]

theorem expectChar_cons (c : Char) (rest : Str) : expectChar c (c :: rest) = some rest := by
  simp [expectChar]

/-- `Date.prototype.toISOString` for timestamps whose year is in `[1970, 9999]`:
`YYYY-MM-DDTHH:MM:SS.mmmZ` with millisecond precision. -/
def toISOString (t : Nat) : Str :=
  let d := t / 86400000
  let y := yearFromDay d
  let md := monthDayOfYear (leapN y) (d - dayFromYear y)
  printPad 4 y ++
    ('-' :: (printPad 2 md.1 ++
      ('-' :: (printPad 2 md.2 ++
        ('T' :: (printPad 2 (t / 3600000 % 24) ++
          (':' :: (printPad 2 (t / 60000 % 60) ++
            (':' :: (printPad 2 (t / 1000 % 60) ++
              ('.' :: (printPad 3 (t % 1000) ++ ['Z']))))))))))))

/-- Year-month-day segment `YYYY-MM-DD` of the ISO format. -/
def parseYMD (s : Str) : Option (Nat × Nat × Nat × Str) :=
  (readField 4 s).bind fun ys =>
  (expectChar '-' ys.2).bind fun s2 =>
  (readField 2 s2).bind fun mos =>
  (expectChar '-' mos.2).bind fun s4 =>
  (readField 2 s4).bind fun ds =>
  some (ys.1, mos.1, ds.1, ds.2)

/-- Time segment `THH:MM:SS` of the ISO format. -/
def parseHMS (s : Str) : Option (Nat × Nat × Nat × Str) :=
  (expectChar 'T' s).bind fun s6 =>
  (readField 2 s6).bind fun hs =>
  (expectChar ':' hs.2).bind fun s8 =>
  (readField 2 s8).bind fun mis =>
  (expectChar ':' mis.2).bind fun s10 =>
  (readField 2 s10).bind fun ss =>
  some (hs.1, mis.1, ss.1, ss.2)

/-- Millisecond segment `.mmmZ` closing the ISO format. -/
def parseMsZ (s : Str) : Option Nat :=
  (expectChar '.' s).bind fun s12 =>
  (readField 3 s12).bind fun mss =>
  (expectChar 'Z' mss.2).bind fun s14 =>
  if s14 = [] then some mss.1 else none

/-- `new Date(isoString)` on the date-time format produced by `toISOString`:
reads the seven fields and recombines them with ECMAScript `MakeDay`/`MakeDate`.
Strings not of that shape are not produced by the persistence adapter, so their
parse (an invalid date in JS) is a `none` here. -/
def parseISODate (s : Str) : Option Nat :=
  (parseYMD s).bind fun ymd =>
  (parseHMS ymd.2.2.2).bind fun hms =>
  (parseMsZ hms.2.2.2).bind fun ms =>
  some ((dayFromYear ymd.1 + monthStart (leapN ymd.1) ymd.2.1 + (ymd.2.2.1 - 1)) * 86400000 +
    hms.1 * 3600000 + hms.2.1 * 60000 + hms.2.2.1 * 1000 + ms)

theorem parseYMD_append (y mo dm : Nat) (rest : Str)
    (hy : y < 10000) (hmo : mo < 100) (hdm : dm < 100) :
    parseYMD (printPad 4 y ++
      ('-' :: (printPad 2 mo ++ ('-' :: (printPad 2 dm ++ rest))))) =
      some (y, mo, dm, rest) := by
  unfold parseYMD
  rw [readField_append 4 y (by omega)]
  simp only [Option.some_bind]
  rw [expectChar_cons]
  simp only [Option.some_bind]
  rw [readField_append 2 mo (by omega)]
  simp only [Option.some_bind]
  rw [expectChar_cons]
  simp only [Option.some_bind]
  rw [readField_append 2 dm (by omega)]
  simp only [Option.some_bind]

theorem parseHMS_append (h mi sec : Nat) (rest : Str)
    (hh : h < 100) (hmi : mi < 100) (hs : sec < 100) :
    parseHMS ('T' :: (printPad 2 h ++
      (':' :: (printPad 2 mi ++ (':' :: (printPad 2 sec ++ rest)))))) =
      some (h, mi, sec, rest) := by
  unfold parseHMS
  rw [expectChar_cons]
  simp only [Option.some_bind]
  rw [readField_append 2 h (by omega)]
  simp only [Option.some_bind]
  rw [expectChar_cons]
  simp only [Option.some_bind]
  rw [readField_append 2 mi (by omega)]
  simp only [Option.some_bind]
  rw [expectChar_cons]
  simp only [Option.some_bind]
  rw [readField_append 2 sec (by omega)]
  simp only [Option.some_bind]

theorem parseMsZ_append (ms : Nat) (hms : ms < 1000) :
    parseMsZ ('.' :: (printPad 3 ms ++ ['Z'])) = some ms := by
  unfold parseMsZ
  rw [expectChar_cons]
  simp only [Option.some_bind]
  rw [readField_append 3 ms (by omega)]
  simp only [Option.some_bind]
  rw [expectChar_cons]
  simp only [Option.some_bind, if_true]

/-- Milliseconds at 10000-01-01T00:00:00Z, the end of the plain-format range. -/
def maxISOTime : Nat := 253402300800000

theorem parseISODate_toISOString (t : Nat) (ht : t < maxISOTime) :
    parseISODate (toISOString t) = some t := by
  obtain ⟨h1970, hle, hlt⟩ := yearFromDay_spec (t / 86400000)
  set d := t / 86400000 with hd
  set y := yearFromDay d with hy
  have hy9999 : y ≤ 9999 := by
    by_contra hcon
    have hmono : dayFromYear 10000 ≤ dayFromYear y := dayFromYear_mono (by omega) (by omega)
    have h1e4 : dayFromYear 10000 = 2932897 := by decide
    have hdb : d ≤ 2932896 := by unfold maxISOTime at ht; omega
    omega
  have hsucc := dayFromYear_succ y h1970
  have hlp : leapN y ≤ 1 := by unfold leapN; split_ifs <;> omega
  have hdy : d - dayFromYear y < 365 + leapN y := by omega
  obtain ⟨hmd, hm1, hm12, hdom1, hdom31⟩ :=
    monthDayOfYear_spec (leapN y) (d - dayFromYear y) hlp hdy
  set md := monthDayOfYear (leapN y) (d - dayFromYear y) with hmdd
  rw [toISOString]
  rw [← hd, ← hy, ← hmdd]
  rw [parseISODate]
  rw [parseYMD_append y md.1 md.2 _ (by omega) (by omega) (by omega)]
  simp only [Option.some_bind]
  rw [parseHMS_append (t / 3600000 % 24) (t / 60000 % 60) (t / 1000 % 60) _
    (by omega) (by omega) (by omega)]
  simp only [Option.some_bind]
  rw [parseMsZ_append (t % 1000) (by omega)]
  simp only [Option.some_bind]
  exact congrArg some (by omega)

/-!
Data model of `realAuthService.ts`: user records, registration drafts,
OTP sessions, and results, plus the localStorage persistence adapter
(`saveUsersToStorage` / `loadUsersFromStorage`).  The JSON layer is modelled
structurally: `JSON.stringify` maps each `User` to a record whose `Date`
fields are the `toISOString` strings (JSON string/boolean fields round-trip
verbatim), and loading converts the strings back with `new Date`.
-/

inductive UserType
  | patient
  | asha
  | doctor
  | admin
deriving DecidableEq

/-- The `User` record of `realAuthService.ts` (the opaque `abhaProfile` and
`profilePhoto` extras are never set by the modelled flows). -/
structure User where
  id : Str
  name : Str
  email : Option Str
  phone : Str
  userType : UserType
  specialty : Option Str
  village : Option Str
  organization : Option Str
  isVerified : Bool
  createdAt : Nat
  lastLogin : Nat
deriving DecidableEq

/-- The `UserRegistration` draft record. -/
structure UserRegistration where
  name : Str
  email : Option Str
  phone : Str
  userType : UserType
  specialty : Option Str
  village : Option Str
  organization : Option Str
deriving DecidableEq

/-- A `User` as it sits in localStorage: `Date` fields are ISO strings. -/
structure StoredUser where
  id : Str
  name : Str
  email : Option Str
  phone : Str
  userType : UserType
  specialty : Option Str
  village : Option Str
  organization : Option Str
  isVerified : Bool
  createdAt : Str
  lastLogin : Str
deriving DecidableEq

/-- Serialization of one user (`JSON.stringify` on a record with `Date`s). -/
def storedOfUser (u : User) : StoredUser :=
  { id := u.id, name := u.name, email := u.email, phone := u.phone,
    userType := u.userType, specialty := u.specialty, village := u.village,
    organization := u.organization, isVerified := u.isVerified,
    createdAt := toISOString u.createdAt, lastLogin := toISOString u.lastLogin }

/-- Rehydration of one user: `new Date(storedString)` on the date fields
(an unparseable string, JS's invalid date, is represented by `0`; the
persistence adapter only ever reads back its own `toISOString` output). -/
def userOfStored (su : StoredUser) : User :=
  { id := su.id, name := su.name, email := su.email, phone := su.phone,
    userType := su.userType, specialty := su.specialty, village := su.village,
    organization := su.organization, isVerified := su.isVerified,
    createdAt := (parseISODate su.createdAt).getD 0,
    lastLogin := (parseISODate su.lastLogin).getD 0 }

/-- `RealAuthService.saveUsersToStorage`: serialize the whole directory. -/
def saveUsers (users : List (Str × User)) : List (Str × StoredUser) :=
  users.map fun kv => (kv.1, storedOfUser kv.2)

/-- `RealAuthService.loadUsersFromStorage`: rebuild every entry, converting
the date strings back to `Date` values. -/
def loadUsers (stored : List (Str × StoredUser)) : List (Str × User) :=
  stored.map fun kv => (kv.1, userOfStored kv.2)

theorem userOfStored_storedOfUser (u : User)
    (h1 : u.createdAt < maxISOTime) (h2 : u.lastLogin < maxISOTime) :
    userOfStored (storedOfUser u) = u := by
  unfold userOfStored storedOfUser
  simp [parseISODate_toISOString _ h1, parseISODate_toISOString _ h2]

theorem loadUsers_saveUsers (users : List (Str × User))
    (h : ∀ kv ∈ users, kv.2.createdAt < maxISOTime ∧ kv.2.lastLogin < maxISOTime) :
    loadUsers (saveUsers users) = users := by
  induction users with
  | nil => rfl
  | cons kv rest ih =>
      have hkv := h kv (by simp)
      have hrest : ∀ kv ∈ rest, kv.2.createdAt < maxISOTime ∧ kv.2.lastLogin < maxISOTime := by
        intro kv hmem
        exact h kv (by simp [hmem])
      simp only [saveUsers, loadUsers, List.map_cons]
      have hu := userOfStored_storedOfUser kv.2 hkv.1 hkv.2
      have htail := ih hrest
      simp only [saveUsers, loadUsers] at htail
      simp [hu, htail]

/-- Decimal digit list of `n` (JS `Number.prototype.toString` on a natural). -/
def natDigitsAux : Nat → Nat → Str
  | 0, _ => []
  | fuel + 1, n =>
      if n < 10 then [digitChar n]
      else natDigitsAux fuel (n / 10) ++ [digitChar (n % 10)]

/-- Decimal rendering of a natural number. -/
def natDigits (n : Nat) : Str := natDigitsAux (n + 1) n

/-- The OTP code generated by `TwilioService.sendOTP`:
`Math.floor(100000 + Math.random() * 900000).toString()`, with the random
draw modelled by the parameter `r`. -/
def genOTP (r : Nat) : Str := natDigits (100000 + r % 900000)

inductive OTPStatus
  | pending
  | approved
  | cancelled
  | failed
deriving DecidableEq

structure OTPSendResult where
  status : OTPStatus
  sid : Option Str
  errorMessage : Option Str
deriving DecidableEq

structure OTPVerificationResult where
  status : OTPStatus
  valid : Bool
  sid : Option Str
  errorMessage : Option Str
deriving DecidableEq

/-- One stored OTP: the 6-digit code and its absolute expiry time. -/
structure OTPEntry where
  code : Str
  expiresAt : Nat
deriving DecidableEq

/-- The failure result `twilioVerifyOTP` returns both when no entry exists
and when the entry is expired — the two cases share one result value. -/
def otpSessionExpiredResult : OTPVerificationResult :=
  { status := .failed, valid := false, sid := none,
    errorMessage := some (strOf "OTP session expired. Please request a new OTP.") }

/-- The failure result for a wrong code against a live entry. -/
def invalidOTPResult : OTPVerificationResult :=
  { status := .failed, valid := false, sid := none,
    errorMessage := some (strOf "Invalid OTP") }

/-- The success result of `twilioVerifyOTP` (its `sid` carries the clock). -/
def approvedResult (now : Nat) : OTPVerificationResult :=
  { status := .approved, valid := true,
    sid := some (strOf "demo_verification_check_" ++ natDigits now),
    errorMessage := none }

/-- `TwilioService.sendOTP` (demo mode): validate the phone, then store a
fresh random code with a five-minute expiry, overwriting any prior entry. -/
def twilioSendOTP (store : List (Str × OTPEntry)) (phoneNumber : Str) (now r : Nat) :
    OTPSendResult × List (Str × OTPEntry) :=
  if isValidPhoneNumber phoneNumber then
    ({ status := .pending,
       sid := some (strOf "demo_verification_" ++ natDigits now),
       errorMessage := none },
     mapSet store phoneNumber { code := genOTP r, expiresAt := now + 5 * 60 * 1000 })
  else
    ({ status := .failed, sid := none,
       errorMessage := some (strOf "Invalid phone number format") }, store)

/-- `TwilioService.verifyOTP`: missing or expired entry → delete it and fail
with the session-expired message; wrong code → fail, entry retained;
matching code → delete the entry (single use) and approve. -/
def twilioVerifyOTP (store : List (Str × OTPEntry)) (phoneNumber code : Str) (now : Nat) :
    OTPVerificationResult × List (Str × OTPEntry) :=
  match mapGet store phoneNumber with
  | none => (otpSessionExpiredResult, mapDelete store phoneNumber)
  | some entry =>
      if now > entry.expiresAt then
        (otpSessionExpiredResult, mapDelete store phoneNumber)
      else if entry.code = code then
        (approvedResult now, mapDelete store phoneNumber)
      else
        (invalidOTPResult, store)

/-- One `otpSessions` entry of `RealAuthService`. -/
structure OtpSession where
  phone : Str
  timestamp : Nat
deriving DecidableEq

/-- The discriminated result of every `RealAuthService` operation. -/
structure AuthResult where
  success : Bool
  user : Option User
  error : Option Str
  requiresOTP : Option Bool
  otpSent : Option Bool
deriving DecidableEq

/-- Failure result carrying only an error message. -/
def authFail (msg : Str) : AuthResult :=
  { success := false, user := none, error := some msg,
    requiresOTP := none, otpSent := none }

/-- Success result carrying the logged-in user. -/
def authSuccess (u : User) : AuthResult :=
  { success := true, user := some u, error := none,
    requiresOTP := none, otpSent := none }

/-- The whole mutable state of the authentication core: the orchestrator's
three maps, the Twilio singleton's OTP store, and the localStorage slot. -/
structure AuthState where
  users : List (Str × User)
  pendingRegistrations : List (Str × UserRegistration)
  otpSessions : List (Str × OtpSession)
  otpStore : List (Str × OTPEntry)
  storage : Option (List (Str × StoredUser))
deriving DecidableEq

/-- The freshly constructed service over empty storage. -/
def emptyAuthState : AuthState :=
  { users := [], pendingRegistrations := [], otpSessions := [],
    otpStore := [], storage := none }

/-- `RealAuthService.findUserByPhone` (first match in insertion order);
the map key is returned alongside so that the JS in-place mutation of the
found record can be modelled as a map update. -/
def findUserByPhone (users : List (Str × User)) (phone : Str) : Option (Str × User) :=
  users.find? fun kv => decide (kv.2.phone = phone)

/-- `RealAuthService.findUserByEmail`. -/
def findUserByEmail (users : List (Str × User)) (email : Str) : Option (Str × User) :=
  users.find? fun kv => decide (kv.2.email = some email)

/-- `RealAuthService.createUser`: mint an id from the clock and a random
token, insert the record, and flush to storage. -/
def createUser (users : List (Str × User)) (reg : UserRegistration) (now : Nat)
    (idTok : Str) : User × List (Str × User) :=
  let uid := strOf "user_" ++ natDigits now ++ strOf "_" ++ idTok
  let u : User :=
    { id := uid, name := reg.name, email := reg.email, phone := reg.phone,
      userType := reg.userType, specialty := reg.specialty,
      village := reg.village, organization := reg.organization,
      isVerified := false, createdAt := now, lastLogin := now }
  (u, mapSet users uid u)

/-- `RealAuthService.sendOTP`: normalize the phone; on success delegate to
the Twilio issuer and record an OTP session stamped with the current time. -/
def realSendOTP (st : AuthState) (phoneNumber : Str) (now r : Nat) :
    AuthResult × AuthState :=
  match formatPhoneNumber phoneNumber with
  | none => (authFail (strOf "Invalid phone number format"), st)
  | some fp =>
      let sr := twilioSendOTP st.otpStore fp now r
      if sr.1.status = .pending then
        ({ success := true, user := none, error := none,
           requiresOTP := some true, otpSent := some true },
         { st with otpStore := sr.2,
                   otpSessions := mapSet st.otpSessions fp { phone := fp, timestamp := now } })
      else
        (authFail ((sr.1.errorMessage).getD (strOf "Failed to send OTP")),
         { st with otpStore := sr.2 })

/-- `RealAuthService.verifyOTPAndLogin`: require a live OTP session, verify
the code with the Twilio verifier, then find or create the user, touch
`lastLogin` and persist. -/
def verifyOTPAndLogin (st : AuthState) (phoneNumber otp : Str) (now : Nat)
    (idTok : Str) : AuthResult × AuthState :=
  match formatPhoneNumber phoneNumber with
  | none => (authFail (strOf "Invalid phone number format"), st)
  | some fp =>
      match mapGet st.otpSessions fp with
      | none => (authFail (strOf "No OTP session found. Please request a new OTP."), st)
      | some session =>
          if now - session.timestamp > 5 * 60 * 1000 then
            (authFail (strOf "OTP session expired. Please request a new OTP."),
             { st with otpSessions := mapDelete st.otpSessions fp })
          else
            let vr := twilioVerifyOTP st.otpStore fp otp now
            if vr.1.valid = false then
              (authFail ((vr.1.errorMessage).getD (strOf "Invalid OTP")),
               { st with otpStore := vr.2 })
            else
              let st1 : AuthState :=
                { st with otpStore := vr.2, otpSessions := mapDelete st.otpSessions fp }
              match findUserByPhone st1.users fp with
              | some kv =>
                  let u := { kv.2 with lastLogin := now }
                  let users := mapSet st1.users kv.1 u
                  (authSuccess u,
                   { st1 with users := users, storage := some (saveUsers users) })
              | none =>
                  match mapGet st1.pendingRegistrations fp with
                  | some reg =>
                      let cu := createUser st1.users reg now idTok
                      let u := { cu.1 with lastLogin := now }
                      let users := mapSet cu.2 u.id u
                      (authSuccess u,
                       { st1 with users := users,
                                  pendingRegistrations := mapDelete st1.pendingRegistrations fp,
                                  storage := some (saveUsers users) })
                  | none =>
                      let reg : UserRegistration :=
                        { name := strOf "User " ++ fp.drop (fp.length - 4),
                          email := none, phone := fp, userType := .patient,
                          specialty := none, village := none, organization := none }
                      let cu := createUser st1.users reg now idTok
                      let u := { cu.1 with lastLogin := now }
                      let users := mapSet cu.2 u.id u
                      (authSuccess u,
                       { st1 with users := users, storage := some (saveUsers users) })

/-- `RealAuthService.registerUser`: refuse an existing phone, else stash the
draft under the canonical phone and send an OTP. -/
def registerUser (st : AuthState) (reg : UserRegistration) (now r : Nat) :
    AuthResult × AuthState :=
  match formatPhoneNumber reg.phone with
  | none => (authFail (strOf "Invalid phone number format"), st)
  | some fp =>
      match findUserByPhone st.users fp with
      | some _ => (authFail (strOf "User already exists with this phone number"), st)
      | none =>
          let st1 : AuthState :=
            { st with pendingRegistrations :=
                mapSet st.pendingRegistrations fp { reg with phone := fp } }
          realSendOTP st1 fp now r

def adminPhones : List Str := [strOf "+919060328119"]

def adminEmails : List Str :=
  [strOf "praveen@stellaronehealth.com", strOf "admin@easymed.in", strOf "admin@gmail.com"]

def adminPasswords : List Str :=
  [strOf "dummy123", strOf "admin123", strOf "easymed2025"]

/-- Generic access-denied result of `authenticateAdmin`. -/
def accessDeniedResult : AuthResult :=
  authFail (strOf "Access denied. Contact system administrator.")

/-- Phone branch of `authenticateAdmin`: format, check the admin phone
allow-list, then behave exactly like `sendOTP`. -/
def adminPhoneAuth (st : AuthState) (identifier : Str) (now r : Nat) :
    AuthResult × AuthState :=
  match formatPhoneNumber identifier with
  | none => (authFail (strOf "Invalid phone number format"), st)
  | some fp =>
      if fp ∈ adminPhones then realSendOTP st fp now r
      else (accessDeniedResult, st)

/-- `!password || !adminPasswords.includes(password)`, negated. -/
def passwordOk : Option Str → Bool
  | none => false
  | some pw => decide (pw ∈ adminPasswords)

/-- The admin `User` draft created for a fresh allow-listed email. -/
def adminRegFor (identifier : Str) : UserRegistration where
  name :=
    if identifier = strOf "praveen@stellaronehealth.com" then
      strOf "Praveen - StellarOne Health"
    else strOf "Admin User"
  email := some identifier
  phone := strOf "+919060328119"
  userType := .admin
  specialty := none
  village := none
  organization := some
    (if identifier = strOf "praveen@stellaronehealth.com" then
      strOf "StellarOne Health"
    else strOf "EasyMed")

/-- Find-or-create step of the email branch: touch `lastLogin`, persist. -/
def adminEmailLogin (st : AuthState) (identifier : Str) (now : Nat) (idTok : Str) :
    AuthResult × AuthState :=
  match findUserByEmail st.users identifier with
  | some kv =>
      let u := { kv.2 with lastLogin := now }
      let users := mapSet st.users kv.1 u
      (authSuccess u, { st with users := users, storage := some (saveUsers users) })
  | none =>
      let cu := createUser st.users (adminRegFor identifier) now idTok
      let u := { cu.1 with lastLogin := now }
      let users := mapSet cu.2 u.id u
      (authSuccess u, { st with users := users, storage := some (saveUsers users) })

/-- Email branch of `authenticateAdmin`: check the email and password
allow-lists, then find or create the admin user, touch `lastLogin`, persist. -/
def adminEmailAuth (st : AuthState) (identifier : Str) (password : Option Str)
    (now : Nat) (idTok : Str) : AuthResult × AuthState :=
  if identifier ∈ adminEmails then
    if passwordOk password then adminEmailLogin st identifier now idTok
    else (authFail (strOf "Invalid password"), st)
  else (accessDeniedResult, st)

/-- `RealAuthService.authenticateAdmin`: route on the digit content of the
identifier, then run the phone or the email branch. -/
def authenticateAdmin (st : AuthState) (identifier : Str) (password : Option Str)
    (now r : Nat) (idTok : Str) : AuthResult × AuthState :=
  if phoneLikeTest (digitsOf identifier) then adminPhoneAuth st identifier now r
  else adminEmailAuth st identifier password now idTok

/-- `RealAuthService.loadUsersFromStorage` at construction time: absent or
unreadable storage hydrates to an empty directory. -/
def hydrateUsers (storage : Option (List (Str × StoredUser))) : List (Str × User) :=
  match storage with
  | none => []
  | some l => loadUsers l

theorem strStartsWith_iff (l p : Str) : strStartsWith l p = true ↔ ∃ r, l = p ++ r := by
  induction p generalizing l with
  | nil => simp [strStartsWith]
  | cons pc ps ih =>
      cases l with
      | nil => simp [strStartsWith]
      | cons c cs =>
          simp only [strStartsWith, Bool.and_eq_true, decide_eq_true_eq, ih,
            List.cons_append, List.cons.injEq]
          constructor
          · rintro ⟨rfl, r, rfl⟩
            exact ⟨r, rfl, rfl⟩
          · rintro ⟨r, rfl, rfl⟩
            exact ⟨rfl, r, rfl⟩

theorem formatPhoneNumber_shape (s v : Str) (h : formatPhoneNumber s = some v) :
    ∃ rest : Str, v = '+' :: '9' :: '1' :: rest ∧ rest.length = 10 ∧
      rest.all Char.isDigit = true := by
  have hdig : ∀ c ∈ digitsOf s, c.isDigit = true := by
    intro c hc
    exact (List.mem_filter.mp hc).2
  unfold formatPhoneNumber at h
  dsimp only at h
  split_ifs at h with h1 h2 h3
  · simp only [Bool.and_eq_true, decide_eq_true_eq] at h1
    injection h with hv
    refine ⟨digitsOf s, ?_, h1.1, List.all_eq_true.mpr hdig⟩
    rw [← hv]
    rfl
  · simp only [Bool.and_eq_true, decide_eq_true_eq] at h2
    obtain ⟨r, hr⟩ := (strStartsWith_iff _ _).mp h2.2
    have hr9 : digitsOf s = '9' :: '1' :: r := by rw [hr]; rfl
    injection h with hv
    refine ⟨r, ?_, ?_, ?_⟩
    · rw [← hv, hr9]
    · have hl := h2.1
      rw [hr9] at hl
      simp at hl
      omega
    · apply List.all_eq_true.mpr
      intro c hc
      refine hdig c ?_
      rw [hr9]
      simp [hc]
  · simp only [Bool.and_eq_true, decide_eq_true_eq] at h3
    obtain ⟨r, hr⟩ := (strStartsWith_iff _ _).mp h3.2
    have hr9 : digitsOf s = '0' :: '9' :: '1' :: r := by rw [hr]; rfl
    injection h with hv
    refine ⟨r, ?_, ?_, ?_⟩
    · rw [← hv, hr9]
      rfl
    · have hl := h3.1
      rw [hr9] at hl
      simp at hl
      omega
    · apply List.all_eq_true.mpr
      intro c hc
      refine hdig c ?_
      rw [hr9]
      simp [hc]

/-- C6: every phone the Normalizer accepts is in E.164 canonical shape
(leading `+`, first digit 1-9, at most 15 digits, here exactly 12), so it
passes `isValidPhoneNumber`; an input failing normalization yields no value
and `sendOTP` returns the invalid-phone failure leaving the state — and
hence the OTP store — untouched. -/
theorem formatPhoneNumber_output_valid_e164 (s : Str) (st : AuthState) (now r : Nat) :
    (∀ v, formatPhoneNumber s = some v → isValidPhoneNumber v = true) ∧
    (formatPhoneNumber s = none →
      realSendOTP st s now r = (authFail (strOf "Invalid phone number format"), st)) := by
  constructor
  · intro v h
    obtain ⟨rest, rfl, hlen, hall⟩ := formatPhoneNumber_shape s v h
    simp only [isValidPhoneNumber, Bool.and_eq_true, decide_eq_true_eq]
    refine ⟨⟨⟨by decide, ?_⟩, by simp⟩, by simp [hlen]⟩
    simp only [List.all_cons, Bool.and_eq_true]
    exact ⟨by decide, hall⟩
  · intro h
    simp [realSendOTP, h]

theorem formatPhoneNumber_output_valid_e164_witness :
    isValidPhoneNumber (strOf "+916789012345") = true ∧
    realSendOTP emptyAuthState (strOf "12345") 0 0 =
      (authFail (strOf "Invalid phone number format"), emptyAuthState) :=
  ⟨(formatPhoneNumber_output_valid_e164 (strOf "6789012345") emptyAuthState 0 0).1
      (strOf "+916789012345") (by decide),
   (formatPhoneNumber_output_valid_e164 (strOf "12345") emptyAuthState 0 0).2 (by decide)⟩

/-- C7: the Normalizer is idempotent — feeding an accepted canonical output
back in returns it unchanged. -/
theorem formatPhoneNumber_idempotent (s v : Str) (h : formatPhoneNumber s = some v) :
    formatPhoneNumber v = some v := by
  obtain ⟨rest, rfl, hlen, hall⟩ := formatPhoneNumber_shape s v h
  have hd : digitsOf ('+' :: '9' :: '1' :: rest) = '9' :: '1' :: rest := by
    unfold digitsOf
    rw [List.filter_cons_of_neg (by decide), List.filter_cons_of_pos (by decide),
      List.filter_cons_of_pos (by decide),
      List.filter_eq_self.mpr (List.all_eq_true.mp hall)]
  unfold formatPhoneNumber
  rw [hd]
  have hL : ('9' :: '1' :: rest).length = 12 := by simp [hlen]
  rw [if_neg (by simp [hL]), if_pos (by simp [hL, strStartsWith, strOf])]

theorem formatPhoneNumber_idempotent_witness :
    formatPhoneNumber (strOf "+916789012345") = some (strOf "+916789012345") :=
  formatPhoneNumber_idempotent (strOf "6789012345") (strOf "+916789012345") (by decide)

example : genOTP 0 = strOf "100000" := by decide
example : genOTP 900005 = strOf "100005" := by decide

theorem expiredResult_not_approved :
    otpSessionExpiredResult.status ≠ OTPStatus.approved := by decide

theorem invalidResult_not_approved :
    invalidOTPResult.status ≠ OTPStatus.approved := by decide

theorem twilioVerifyOTP_noentry (store : List (Str × OTPEntry)) (p code : Str)
    (now : Nat) (hget : mapGet store p = none) :
    twilioVerifyOTP store p code now = (otpSessionExpiredResult, mapDelete store p) := by
  unfold twilioVerifyOTP
  rw [hget]

theorem twilioVerifyOTP_entry (store : List (Str × OTPEntry)) (p code : Str)
    (e : OTPEntry) (now : Nat) (hget : mapGet store p = some e) :
    twilioVerifyOTP store p code now =
      if now > e.expiresAt then (otpSessionExpiredResult, mapDelete store p)
      else if e.code = code then (approvedResult now, mapDelete store p)
      else (invalidOTPResult, store) := by
  unfold twilioVerifyOTP
  rw [hget]

/-- C1: the spec's end-to-end scenario fails on the code: the 10-digit branch
of `formatPhoneNumber` tests `startsWith('6789')` — the literal four-character
prefix, not the digit class `[6-9]` — so the standard Indian mobile number
`"9876543210"` is rejected and `sendOTP` returns the invalid-phone failure
instead of `OtpSent`. -/
theorem sendOTP_rejects_standard_indian_mobile :
    formatPhoneNumber (strOf "9876543210") = none ∧
    (∀ (st : AuthState) (now r : Nat),
      realSendOTP st (strOf "9876543210") now r =
        (authFail (strOf "Invalid phone number format"), st)) ∧
    formatPhoneNumber (strOf "6789543210") = some (strOf "+916789543210") := by
  refine ⟨by decide, ?_, by decide⟩
  intro st now r
  simp [realSendOTP, show formatPhoneNumber (strOf "9876543210") = none from by decide]

/-- C2: a code is single-use — once `verifyOTP` approves, the entry is
deleted, and repeating the very same call returns the code's no-entry
response (`otpSessionExpiredResult`), never `approved` again. -/
theorem verifyOTP_code_single_use (store : List (Str × OTPEntry)) (p c : Str)
    (now now2 : Nat)
    (h : ((twilioVerifyOTP store p c now).1).status = OTPStatus.approved) :
    (twilioVerifyOTP (twilioVerifyOTP store p c now).2 p c now2).1 =
      otpSessionExpiredResult ∧
    ((twilioVerifyOTP (twilioVerifyOTP store p c now).2 p c now2).1).status ≠
      OTPStatus.approved := by
  cases hm : mapGet store p with
  | none =>
      rw [twilioVerifyOTP_noentry store p c now hm] at h
      exact absurd h expiredResult_not_approved
  | some e =>
      rw [twilioVerifyOTP_entry store p c e now hm] at h
      by_cases hexp : now > e.expiresAt
      · rw [if_pos hexp] at h
        exact absurd h expiredResult_not_approved
      · rw [if_neg hexp] at h
        by_cases hc : e.code = c
        · have hst : (twilioVerifyOTP store p c now).2 = mapDelete store p := by
            rw [twilioVerifyOTP_entry store p c e now hm, if_neg hexp, if_pos hc]
          rw [hst, twilioVerifyOTP_noentry _ p c now2 (mapGet_mapDelete_self store p)]
          exact ⟨rfl, expiredResult_not_approved⟩
        · rw [if_neg hc] at h
          exact absurd h invalidResult_not_approved

theorem verifyOTP_code_single_use_witness :
    ((twilioVerifyOTP
        (twilioVerifyOTP [(strOf "+916789012345", ⟨strOf "123456", 1000⟩)]
          (strOf "+916789012345") (strOf "123456") 5).2
        (strOf "+916789012345") (strOf "123456") 6).1).status ≠
      OTPStatus.approved :=
  (verifyOTP_code_single_use [(strOf "+916789012345", ⟨strOf "123456", 1000⟩)]
    (strOf "+916789012345") (strOf "123456") 5 6 (by decide)).2

/-- C3: a second `sendOTP` for the same phone overwrites the stored entry, so
verifying with the prior (distinct) code yields `Invalid` — or the shared
no-entry/expired failure if the fresh entry is already past expiry — and in
no case `approved`. -/
theorem second_send_invalidates_prior_code (store : List (Str × OTPEntry)) (p : Str)
    (now1 r1 now2 r2 now3 : Nat)
    (hval : isValidPhoneNumber p = true) (hne : genOTP r1 ≠ genOTP r2) :
    ((twilioVerifyOTP (twilioSendOTP (twilioSendOTP store p now1 r1).2 p now2 r2).2
        p (genOTP r1) now3).1 = invalidOTPResult ∨
     (twilioVerifyOTP (twilioSendOTP (twilioSendOTP store p now1 r1).2 p now2 r2).2
        p (genOTP r1) now3).1 = otpSessionExpiredResult) ∧
    ((twilioVerifyOTP (twilioSendOTP (twilioSendOTP store p now1 r1).2 p now2 r2).2
        p (genOTP r1) now3).1).status ≠ OTPStatus.approved := by
  have hs2 : (twilioSendOTP (twilioSendOTP store p now1 r1).2 p now2 r2).2 =
      mapSet (twilioSendOTP store p now1 r1).2 p
        { code := genOTP r2, expiresAt := now2 + 5 * 60 * 1000 } := by
    simp [twilioSendOTP, hval]
  rw [hs2]
  rw [twilioVerifyOTP_entry _ p (genOTP r1)
    { code := genOTP r2, expiresAt := now2 + 5 * 60 * 1000 } now3
    (mapGet_mapSet_self _ p _)]
  by_cases hexp : now3 > now2 + 5 * 60 * 1000
  · rw [if_pos hexp]
    exact ⟨Or.inr rfl, expiredResult_not_approved⟩
  · rw [if_neg hexp, if_neg (fun hc : genOTP r2 = genOTP r1 => hne hc.symm)]
    exact ⟨Or.inl rfl, invalidResult_not_approved⟩

theorem second_send_invalidates_prior_code_witness :
    ((twilioVerifyOTP
        (twilioSendOTP (twilioSendOTP [] (strOf "+916789012345") 0 0).2
          (strOf "+916789012345") 1 1).2
        (strOf "+916789012345") (genOTP 0) 2).1).status ≠ OTPStatus.approved :=
  (second_send_invalidates_prior_code [] (strOf "+916789012345") 0 0 1 1 2
    (by decide) (by decide)).2

/-- C4 counterexample: the verifier does not return distinct outcomes for a
missing entry and an expired one — on a store with no entry for the phone and
on a store whose entry is expired (`now = 1 > expiresAt = 0`) it returns the
very same result value. -/
theorem verify_noentry_expired_same_result :
    (twilioVerifyOTP [] (strOf "+916789012345") (strOf "123456") 1).1 =
      (twilioVerifyOTP [(strOf "+916789012345", ⟨strOf "654321", 0⟩)]
        (strOf "+916789012345") (strOf "123456") 1).1 ∧
    mapGet ([] : List (Str × OTPEntry)) (strOf "+916789012345") = none ∧
    (1 : Nat) > (0 : Nat) := by
  decide

/-- C4 amended: when the entry is expired the verifier deletes it and returns
the same session-expired failure it gives for a missing entry (not a distinct
outcome), and every subsequent attempt for that phone keeps returning that
same failure. -/
theorem verify_expired_then_noentry (store : List (Str × OTPEntry)) (p code : Str)
    (e : OTPEntry) (now : Nat)
    (hget : mapGet store p = some e) (hexp : now > e.expiresAt) :
    (twilioVerifyOTP store p code now).1 = otpSessionExpiredResult ∧
    mapGet (twilioVerifyOTP store p code now).2 p = none ∧
    (∀ store2 : List (Str × OTPEntry), mapGet store2 p = none →
      (twilioVerifyOTP store2 p code now).1 = otpSessionExpiredResult) ∧
    (∀ code2 now2 : _,
      (twilioVerifyOTP (twilioVerifyOTP store p code now).2 p code2 now2).1 =
        otpSessionExpiredResult) := by
  have h1 : twilioVerifyOTP store p code now = (otpSessionExpiredResult, mapDelete store p) := by
    rw [twilioVerifyOTP_entry store p code e now hget, if_pos hexp]
  refine ⟨by rw [h1], ?_, ?_, ?_⟩
  · rw [h1]
    exact mapGet_mapDelete_self store p
  · intro store2 h2
    rw [twilioVerifyOTP_noentry store2 p code now h2]
  · intro code2 now2
    rw [h1, twilioVerifyOTP_noentry _ p code2 now2 (mapGet_mapDelete_self store p)]

theorem verify_expired_then_noentry_witness :
    (twilioVerifyOTP [(strOf "+916789012345", ⟨strOf "123456", 0⟩)]
      (strOf "+916789012345") (strOf "123456") 1).1 = otpSessionExpiredResult :=
  (verify_expired_then_noentry [(strOf "+916789012345", ⟨strOf "123456", 0⟩)]
    (strOf "+916789012345") (strOf "123456") ⟨strOf "123456", 0⟩ 1
    (by decide) (by decide)).1

/-- C5: a wrong code against a live entry returns `Invalid` and changes
nothing: the verifier keeps the `OTPEntry` (store returned unchanged) and
`verifyOTPAndLogin` returns the `Invalid OTP` failure with the state — in
particular the `VerificationSession` — exactly as it was, so the caller can
retry within the expiry window. -/
theorem invalid_code_preserves_entry_and_session (st : AuthState) (raw otp fp : Str)
    (e : OTPEntry) (sess : OtpSession) (now : Nat) (idTok : Str)
    (hfmt : formatPhoneNumber raw = some fp)
    (hsess : mapGet st.otpSessions fp = some sess)
    (hlive : now - sess.timestamp ≤ 5 * 60 * 1000)
    (hentry : mapGet st.otpStore fp = some e)
    (hfresh : now ≤ e.expiresAt)
    (hwrong : ¬e.code = otp) :
    twilioVerifyOTP st.otpStore fp otp now = (invalidOTPResult, st.otpStore) ∧
    verifyOTPAndLogin st raw otp now idTok = (authFail (strOf "Invalid OTP"), st) := by
  have hv : twilioVerifyOTP st.otpStore fp otp now = (invalidOTPResult, st.otpStore) := by
    rw [twilioVerifyOTP_entry st.otpStore fp otp e now hentry,
      if_neg (show ¬now > e.expiresAt by omega), if_neg hwrong]
  refine ⟨hv, ?_⟩
  unfold verifyOTPAndLogin
  rw [hfmt]
  simp only [hsess]
  rw [if_neg (show ¬now - sess.timestamp > 5 * 60 * 1000 by omega)]
  simp only [hv, invalidOTPResult]
  rfl

/-- A concrete state with one live OTP session and entry, for the witnesses. -/
def sampleSessionState : AuthState where
  users := []
  pendingRegistrations := []
  otpSessions := [(strOf "+916789012345", ⟨strOf "+916789012345", 0⟩)]
  otpStore := [(strOf "+916789012345", ⟨strOf "123456", 1000⟩)]
  storage := none

theorem invalid_code_preserves_entry_and_session_witness :
    verifyOTPAndLogin sampleSessionState (strOf "+916789012345") (strOf "654321") 5 [] =
      (authFail (strOf "Invalid OTP"), sampleSessionState) :=
  (invalid_code_preserves_entry_and_session sampleSessionState (strOf "+916789012345")
    (strOf "654321") (strOf "+916789012345") ⟨strOf "123456", 1000⟩
    ⟨strOf "+916789012345", 0⟩ 5 []
    (by decide) (by decide) (by decide) (by decide) (by decide) (by decide)).2

/-- C9: persistence round-trip — serializing the whole directory and loading
it back reconstructs the same entries (same count, ids, roles, and the exact
millisecond timestamps), for every directory whose timestamps lie in the
plain-format ISO range. -/
theorem users_storage_roundtrip (users : List (Str × User))
    (h : ∀ kv ∈ users, kv.2.createdAt < maxISOTime ∧ kv.2.lastLogin < maxISOTime) :
    loadUsers (saveUsers users) = users ∧ (saveUsers users).length = users.length :=
  ⟨loadUsers_saveUsers users h, by simp [saveUsers]⟩

/-- Two concrete directory entries for the round-trip witness. -/
def sampleUser1 : User where
  id := strOf "user_1"
  name := strOf "User 2345"
  email := none
  phone := strOf "+916789012345"
  userType := UserType.patient
  specialty := none
  village := none
  organization := none
  isVerified := false
  createdAt := 1700000000000
  lastLogin := 1700000000123

def sampleUser2 : User where
  id := strOf "user_2"
  name := strOf "Admin User"
  email := some (strOf "admin@easymed.in")
  phone := strOf "+919060328119"
  userType := UserType.admin
  specialty := none
  village := none
  organization := some (strOf "EasyMed")
  isVerified := true
  createdAt := 0
  lastLogin := 253402300799999

theorem users_storage_roundtrip_witness :
    loadUsers (saveUsers [(strOf "user_1", sampleUser1), (strOf "user_2", sampleUser2)]) =
      [(strOf "user_1", sampleUser1), (strOf "user_2", sampleUser2)] :=
  (users_storage_roundtrip [(strOf "user_1", sampleUser1), (strOf "user_2", sampleUser2)]
    (by decide)).1

theorem phoneLikeCore_iff (c : Char) (cs : Str) (hall : cs.all Char.isDigit = true) :
    phoneLikeCore (c :: cs) = true ↔
      ('1' ≤ c ∧ c ≤ '9' ∧ 1 ≤ cs.length ∧ cs.length ≤ 14) := by
  unfold phoneLikeCore
  simp only [hall, isDigit19, Bool.and_eq_true, decide_eq_true_eq, and_true]
  tauto

/-- C10: `authenticateAdmin` routes purely on the digit content of the
identifier — the phone branch is taken exactly when the digit-stripped
identifier is 2 to 15 digits long and starts with a nonzero digit; otherwise
the email branch runs.  Hence an email such as `easymed2025@example.com`,
whose digits are `2025`, is treated as a phone number and can never reach the
email allow-lists: it fails with the invalid-phone error for every state and
password. -/
theorem authenticateAdmin_routes_on_digit_content (identifier : Str) (st : AuthState)
    (pw : Option Str) (now r : Nat) (idTok : Str) :
    (phoneLikeTest (digitsOf identifier) = true ↔
      (2 ≤ (digitsOf identifier).length ∧ (digitsOf identifier).length ≤ 15 ∧
        ∃ c rest, digitsOf identifier = c :: rest ∧ '1' ≤ c ∧ c ≤ '9')) ∧
    (phoneLikeTest (digitsOf identifier) = true →
      authenticateAdmin st identifier pw now r idTok = adminPhoneAuth st identifier now r) ∧
    (phoneLikeTest (digitsOf identifier) = false →
      authenticateAdmin st identifier pw now r idTok =
        adminEmailAuth st identifier pw now idTok) ∧
    authenticateAdmin st (strOf "easymed2025@example.com") pw now r idTok =
      (authFail (strOf "Invalid phone number format"), st) := by
  refine ⟨?_, ?_, ?_, ?_⟩
  · cases hd : digitsOf identifier with
    | nil => simp [phoneLikeTest, phoneLikeCore]
    | cons c cs =>
        have hcdig : c.isDigit = true := by
          have hmem : c ∈ digitsOf identifier := by
            rw [hd]; exact List.mem_cons_self c cs
          exact (List.mem_filter.mp hmem).2
        have hcne : ¬c = '+' := by
          intro hcp
          rw [hcp] at hcdig
          exact absurd hcdig (by decide)
        have hall : cs.all Char.isDigit = true := by
          apply List.all_eq_true.mpr
          intro x hx
          have hmem : x ∈ digitsOf identifier := by
            rw [hd]; exact List.mem_cons_of_mem c hx
          exact (List.mem_filter.mp hmem).2
        have hstep : phoneLikeTest (c :: cs) = phoneLikeCore (c :: cs) := by
          simp [phoneLikeTest, if_neg hcne]
        rw [hstep, phoneLikeCore_iff c cs hall]
        constructor
        · rintro ⟨h1, h9, hl1, hl14⟩
          refine ⟨?_, ?_, c, cs, rfl, h1, h9⟩ <;>
            (simp only [List.length_cons]; omega)
        · rintro ⟨hl2, hl15, c2, r2, heq, h1, h9⟩
          injection heq with e1 e2
          subst e1
          subst e2
          simp only [List.length_cons] at hl2 hl15
          exact ⟨h1, h9, by omega, by omega⟩
  · intro h
    unfold authenticateAdmin
    rw [if_pos h]
  · intro h
    unfold authenticateAdmin
    rw [if_neg (by simp [h])]
  · unfold authenticateAdmin
    rw [if_pos (by decide)]
    unfold adminPhoneAuth
    rw [show formatPhoneNumber (strOf "easymed2025@example.com") = none from by decide]

theorem authenticateAdmin_routes_on_digit_content_witness :
    authenticateAdmin emptyAuthState (strOf "+919060328119") none 0 0 [] =
      adminPhoneAuth emptyAuthState (strOf "+919060328119") 0 0 :=
  (authenticateAdmin_routes_on_digit_content (strOf "+919060328119") emptyAuthState
    none 0 0 []).2.1 (by decide)

theorem findUserByEmail_email (users : List (Str × User)) (email : Str)
    (kv : Str × User) (hfind : findUserByEmail users email = some kv) :
    kv.2.email = some email := by
  unfold findUserByEmail at hfind
  have h := List.find?_some hfind
  exact of_decide_eq_true h

theorem adminEmailLogin_found (st : AuthState) (identifier : Str) (now : Nat)
    (idTok : Str) (kv : Str × User)
    (hfind : findUserByEmail st.users identifier = some kv) :
    adminEmailLogin st identifier now idTok =
      (authSuccess { kv.2 with lastLogin := now },
       { st with
          users := mapSet st.users kv.1 { kv.2 with lastLogin := now },
          storage := some (saveUsers (mapSet st.users kv.1 { kv.2 with lastLogin := now })) }) := by
  unfold adminEmailLogin
  rw [hfind]

theorem adminEmailLogin_create (st : AuthState) (identifier : Str) (now : Nat)
    (idTok : Str) (hfind : findUserByEmail st.users identifier = none) :
    adminEmailLogin st identifier now idTok =
      (authSuccess { (createUser st.users (adminRegFor identifier) now idTok).1 with
          lastLogin := now },
       { st with
          users := mapSet (createUser st.users (adminRegFor identifier) now idTok).2
            ({ (createUser st.users (adminRegFor identifier) now idTok).1 with
                lastLogin := now }).id
            { (createUser st.users (adminRegFor identifier) now idTok).1 with
                lastLogin := now },
          storage := some (saveUsers
            (mapSet (createUser st.users (adminRegFor identifier) now idTok).2
              ({ (createUser st.users (adminRegFor identifier) now idTok).1 with
                  lastLogin := now }).id
              { (createUser st.users (adminRegFor identifier) now idTok).1 with
                  lastLogin := now })) }) := by
  unfold adminEmailLogin
  rw [hfind]

/-- C8: `authenticateAdmin("admin@easymed.in", "admin123")` runs the email
branch synchronously (no OTP step): it succeeds with an admin-role user bound
to that email whose `lastLogin` is set to the current time, and the directory
is persisted (storage holds the serialized user map).  The same identifier
with a password outside the allow-list fails with `Invalid password`, and a
non-allow-listed email identifier fails with the access-denied error — state
untouched in both failure cases.  (The admin-role conclusion for the found
path assumes any stored user holding that email is an admin, which is how the
email ever gets set in this service.) -/
theorem authenticateAdmin_email_flow (st : AuthState) (now r : Nat) (idTok : Str)
    (hadm : ∀ kv : Str × User,
      findUserByEmail st.users (strOf "admin@easymed.in") = some kv →
      kv.2.userType = UserType.admin) :
    (∃ u : User,
      (authenticateAdmin st (strOf "admin@easymed.in") (some (strOf "admin123"))
          now r idTok).1 = authSuccess u ∧
      u.userType = UserType.admin ∧
      u.email = some (strOf "admin@easymed.in") ∧
      u.lastLogin = now ∧
      (authenticateAdmin st (strOf "admin@easymed.in") (some (strOf "admin123"))
          now r idTok).2.storage =
        some (saveUsers
          ((authenticateAdmin st (strOf "admin@easymed.in") (some (strOf "admin123"))
              now r idTok).2.users))) ∧
    authenticateAdmin st (strOf "admin@easymed.in") (some (strOf "wrongpass"))
        now r idTok = (authFail (strOf "Invalid password"), st) ∧
    authenticateAdmin st (strOf "bob@example.com") (some (strOf "admin123"))
        now r idTok = (accessDeniedResult, st) := by
  have hroute : ∀ pw : Option Str,
      authenticateAdmin st (strOf "admin@easymed.in") pw now r idTok =
        adminEmailAuth st (strOf "admin@easymed.in") pw now idTok := by
    intro pw
    unfold authenticateAdmin
    rw [if_neg (by decide)]
  refine ⟨?_, ?_, ?_⟩
  · rw [hroute]
    unfold adminEmailAuth
    rw [if_pos (by decide), if_pos (by decide)]
    cases hfind : findUserByEmail st.users (strOf "admin@easymed.in") with
    | some kv =>
        rw [adminEmailLogin_found st _ now idTok kv hfind]
        exact ⟨{ kv.2 with lastLogin := now }, rfl, hadm kv hfind,
          findUserByEmail_email st.users _ kv hfind, rfl, rfl⟩
    | none =>
        rw [adminEmailLogin_create st _ now idTok hfind]
        exact ⟨_, rfl, rfl, rfl, rfl, rfl⟩
  · rw [hroute]
    unfold adminEmailAuth
    rw [if_pos (by decide), if_neg (by decide)]
  · unfold authenticateAdmin
    rw [if_neg (by decide)]
    unfold adminEmailAuth
    rw [if_neg (by decide)]

theorem authenticateAdmin_email_flow_witness :
    authenticateAdmin emptyAuthState (strOf "admin@easymed.in")
        (some (strOf "wrongpass")) 7 0 [] =
      (authFail (strOf "Invalid password"), emptyAuthState) :=
  (authenticateAdmin_email_flow emptyAuthState 7 0 []
    (by intro kv h; simp [findUserByEmail, emptyAuthState] at h)).2.1
